import Mathlib

/-!
Verification of the UE5 MCP bridge server core (UE5MCPBridge/Private/MCPServer.cpp):
transport framing, JSON-RPC dispatch, protocol fault handling, the tool registry
and the connection-management loop, shallowly embedded in Lean.

Modelling conventions:
* JSON values are the inductive `Json` below; an object is an association list in
  insertion order, mirroring `FJsonObject`'s field map.  JSON number literals
  are modelled as `Int` (fractional literals play no role in any claim).  The
  field accessors reproduce the engine's behaviour exactly: `TryGetString`
  coerces numbers and booleans to their string form, `TryGetNumber` coerces
  booleans and numeric strings (per `FString::IsNumeric` / `FCString::Atof`,
  with fractional strings kept exact), and `TryGetNumberField(int32&)` applies
  the int32 range check and rounds half away from zero.
* `TSharedPtr<FJsonObject>` is `Option JsonObj`: `none` is an invalid (null)
  shared pointer, exactly what UE's `GetObjectField` returns for a missing or
  non-object field.
* The per-tool side effects run against the live editor and are abstracted by a
  `ToolExec` parameter giving the textual result of each tool's executor; the
  dispatch structure around them is transcribed from the source.
-/

namespace UE5MCP

/-- A JSON value, as produced by `FJsonSerializer`.  Objects keep fields as an
association list in insertion order (`FJsonObject` preserves insertion order). -/
inductive Json where
  | null : Json
  | boolean : Bool → Json
  | num : Int → Json
  | str : String → Json
  | arr : List Json → Json
  | obj : List (String × Json) → Json
deriving Repr

/-- The field map of an `FJsonObject`. -/
abbrev JsonObj := List (String × Json)

/-- `FJsonObject::TryGetField` / `TMap::Find`: first field with the given key. -/
def findField (o : JsonObj) (key : String) : Option Json :=
  (o.find? (fun p => p.1 = key)).map Prod.snd

/-- Leading decimal digits and the rest of the input. -/
def takeDigits : List Char → List Char × List Char
  | c :: cs =>
      if '0' ≤ c ∧ c ≤ '9' then
        let (ds, r) := takeDigits cs
        (c :: ds, r)
      else ([], c :: cs)
  | [] => ([], [])

/-- The natural number denoted by a list of decimal digits. -/
def digitsToNat (ds : List Char) : Nat :=
  ds.foldl (fun a c => a * 10 + (c.toNat - 48)) 0

/-- The digit-and-dot body check of `FString::IsNumeric`: decimal digits with
at most one decimal point (the engine accepts an empty body, so a lone sign or
dot counts as numeric). -/
def isNumericBody : List Char → Bool → Bool
  | [], _ => true
  | c :: cs, seenDot =>
      if c = '.' then
        if seenDot then false else isNumericBody cs true
      else if '0' ≤ c ∧ c ≤ '9' then isNumericBody cs seenDot
      else false

/-- `FString::IsNumeric`: non-empty, an optional sign, then digits with at most
one decimal point. -/
def isNumericStr (s : String) : Bool :=
  match s.data with
  | [] => false
  | c :: cs => if c = '-' ∨ c = '+' then isNumericBody cs false
               else isNumericBody (c :: cs) false

/-- The exact value `FCString::Atof` reads from a string accepted by
`IsNumeric`, kept as sign, integer part and fraction digits so that the int32
conversion below is exact. -/
def numStrParts (s : String) : Bool × Nat × List Char :=
  let (neg, body) := match s.data with
    | '-' :: cs => (true, cs)
    | '+' :: cs => (false, cs)
    | cs => (false, cs)
  let (ip, rest) := takeDigits body
  let fr := match rest with
    | '.' :: cs => (takeDigits cs).1
    | _ => []
  (neg, digitsToNat ip, fr)

/-- True when the fraction digits denote a value of at least one half (first
digit at least 5), the case in which `FMath::RoundHalfFromZero` rounds the
magnitude up. -/
def fracAtLeastHalf : List Char → Bool
  | [] => false
  | c :: _ => '5' ≤ c

/-- True when the fraction digits denote zero. -/
def fracIsZero (fr : List Char) : Bool := fr.all (fun c => c = '0')

/-- `FJsonValue::TryGetNumber(double&)` with the engine's coercions: a number
directly; a boolean as 1 or 0; a string that passes `IsNumeric` via `Atof`.
The value is returned as sign / integer part / fraction digits; other value
types fail. -/
def jsonNumberParts : Json → Option (Bool × Nat × List Char)
  | Json.num n => some (decide (n < 0), n.natAbs, [])
  | Json.boolean b => some (false, if b then 1 else 0, [])
  | Json.str s => if isNumericStr s then some (numStrParts s) else none
  | _ => none

/-- `FJsonValue::TryGetNumber(int32&)` from the double's exact value: fails
outside the int32 range [-2147483648, 2147483647], otherwise rounds half away
from zero (`FMath::RoundHalfFromZero`). -/
def int32OfParts (neg : Bool) (ip : Nat) (fr : List Char) : Option Int :=
  if neg then
    if ip < 2147483648 ∨ (ip = 2147483648 ∧ fracIsZero fr) then
      some (-(ip + (if fracAtLeastHalf fr then 1 else 0) : Int))
    else none
  else
    if ip < 2147483647 ∨ (ip = 2147483647 ∧ fracIsZero fr) then
      some ((ip : Int) + (if fracAtLeastHalf fr then 1 else 0))
    else none

/-- `FJsonValue::TryGetString` with the engine's coercions: a string directly,
a number or boolean stringified (`42` to "42", `true` to "true"); null, arrays
and objects fail. -/
def jsonTryGetString : Json → Option String
  | Json.str s => some s
  | Json.num n => some (toString n)
  | Json.boolean b => some (if b then "true" else "false")
  | _ => none

/-- `FJsonObject::TryGetStringField`: succeeds when the field exists and its
value has a string form (strings, and numbers/booleans by coercion). -/
def tryGetStringField (o : JsonObj) (key : String) : Option String :=
  (findField o key).bind jsonTryGetString

/-- `FJsonObject::TryGetNumberField(int32&)`: succeeds when the field exists,
its value has a numeric form (numbers, booleans, numeric strings) and that
value passes the int32 range check; the result is rounded half from zero. -/
def tryGetNumberField (o : JsonObj) (key : String) : Option Int :=
  (findField o key).bind (fun v =>
    (jsonNumberParts v).bind (fun p => int32OfParts p.1 p.2.1 p.2.2))

/-- `FJsonObject::GetObjectField`: the contained object when the field exists
and is an object, otherwise an invalid shared pointer (UE logs and yields an
empty `TSharedPtr`). -/
def getObjectField (o : JsonObj) (key : String) : Option JsonObj :=
  match findField o key with
  | some (Json.obj fields) => some fields
  | _ => none

/-- `FJsonObject::GetStringField`: the field's string form (with the same
number/boolean coercion as `TryGetString`), or the empty string when the field
is missing or has no string form (UE logs and returns a default `FString`). -/
def getStringFieldD (o : JsonObj) (key : String) : String :=
  ((findField o key).bind jsonTryGetString).getD ""

/-- `FJsonObject::HasField`. -/
def hasField (o : JsonObj) (key : String) : Bool :=
  (findField o key).isSome

/-- `FMCPServer::CreateSuccessResponse`: the `{jsonrpc, id, result}` envelope,
fields in the insertion order of the source. -/
def createSuccessResponse (id : Int) (result : Json) : Json :=
  Json.obj [("jsonrpc", Json.str "2.0"), ("id", Json.num id), ("result", result)]

/-- `FMCPServer::CreateErrorResponse`: the `{jsonrpc, id, error: {code, message}}`
envelope, fields in the insertion order of the source. -/
def createErrorResponse (id : Int) (code : Int) (message : String) : Json :=
  Json.obj [("jsonrpc", Json.str "2.0"), ("id", Json.num id),
            ("error", Json.obj [("code", Json.num code), ("message", Json.str message)])]

/-- The `id` field of a response envelope (the number literal the encoder
wrote, read structurally). -/
def responseId (r : Json) : Option Int :=
  match r with
  | Json.obj o =>
      match findField o "id" with
      | some (Json.num n) => some n
      | _ => none
  | _ => none

/-- The `error.code` field of a response envelope, when the response is a
JSON-RPC error (the number literal the encoder wrote, read structurally). -/
def responseErrorCode (r : Json) : Option Int :=
  match r with
  | Json.obj o =>
      match getObjectField o "error" with
      | some e =>
          match findField e "code" with
          | some (Json.num n) => some n
          | _ => none
      | none => none
  | _ => none

/-- A response envelope is a JSON-RPC error iff it carries an `error` member. -/
def isErrorResponse (r : Json) : Bool :=
  match r with
  | Json.obj o => (getObjectField o "error").isSome
  | _ => false

/-- `FMCPServer::ProtocolVersion`. -/
def protocolVersion : String := "2024-11-05"

/-- `FMCPServer::HandleInitialize`: protocol version, capability set and server
identity, wrapped as a success envelope. -/
def handleInit (id : Int) : Json :=
  createSuccessResponse id
    (Json.obj [("protocolVersion", Json.str protocolVersion),
               ("capabilities", Json.obj [("tools", Json.obj [])]),
               ("serverInfo", Json.obj [("name", Json.str "ue5-mcp-bridge"),
                                        ("version", Json.str "3.2.0")])])

/-- The textual result of one tool executor on the game thread.  The per-tool
bodies act on the live editor and are abstracted; the dispatch around them is
transcribed from `FMCPServer::HandleToolsCall`. -/
abbrev ToolExec := String → Option JsonObj → String

/-- The tool names recognised by the `else if` dispatch chain of
`FMCPServer::HandleToolsCall` (lines 1879-2124), in chain order.  Each branch
compares `ToolName` against one literal and calls that tool's executor, so the
chain is equivalent to a membership test driving a name-indexed executor. -/
def toolNames : List String :=
  ["get_actor_list", "spawn_actor", "delete_actor", "get_actor_properties",
   "set_actor_property", "find_actors_by_class", "find_actors_by_tag", "find_actors_by_name",
   "duplicate_actor", "set_actor_visibility", "snap_actor_to_ground", "rename_actor",
   "add_actor_tag", "remove_actor_tag", "get_actor_tags", "set_actor_mobility",
   "get_actor_mobility", "attach_actor_to_actor", "detach_actor", "select_actors",
   "get_selected_actors", "clear_selection", "focus_on_actor", "get_viewport_camera",
   "set_viewport_camera", "take_screenshot", "set_view_mode", "get_view_mode",
   "pilot_actor", "stop_piloting", "set_viewport_realtime", "set_viewport_stats",
   "get_current_level", "load_level", "save_level", "start_pie",
   "stop_pie", "search_assets", "get_asset_info", "load_asset",
   "duplicate_asset", "rename_asset", "delete_asset", "create_folder",
   "get_asset_references", "create_blueprint", "get_blueprint_info", "compile_blueprint",
   "spawn_blueprint_actor", "add_blueprint_variable", "remove_blueprint_variable", "get_blueprint_variables",
   "get_blueprint_functions", "set_blueprint_variable_default", "create_material_instance", "set_material_scalar",
   "apply_material_to_actor", "set_material_vector", "get_material_parameters", "replace_actor_material",
   "get_actor_materials", "execute_console_command", "get_project_info", "set_simulate_physics",
   "set_collision_enabled", "set_collision_profile", "add_impulse", "get_physics_state",
   "get_editor_preference", "set_editor_preference", "run_editor_utility", "get_engine_info",
   "set_viewport_bookmark", "jump_to_bookmark", "clear_bookmark", "list_bookmarks",
   "get_actor_components", "get_component_properties", "set_component_transform", "set_component_visibility",
   "remove_component", "play_animation", "stop_animation", "get_animation_list",
   "create_level_sequence", "add_actor_to_sequence", "play_sequence", "stop_sequence",
   "set_sequence_time", "play_sound_at_location", "spawn_audio_component", "set_audio_volume",
   "stop_all_sounds", "get_audio_components", "set_audio_attenuation", "get_landscape_info",
   "get_landscape_height", "get_foliage_types", "add_foliage_instance", "remove_foliage_in_radius",
   "get_foliage_count"]

/-- The dispatch chain of `FMCPServer::HandleToolsCall`: a recognised name runs
that tool's executor, any other name yields the fixed unknown-tool text. -/
def dispatchTool (exec : ToolExec) (name : String) (args : Option JsonObj) : String :=
  if name ∈ toolNames then exec name args else "Unknown tool: " ++ name

/-- The single `{type: "text", text}` content item wrapped by every `tools/call`
success result. -/
def contentResult (text : String) : Json :=
  Json.obj [("content", Json.arr [Json.obj [("type", Json.str "text"),
                                            ("text", Json.str text)]])]

/-- `FMCPServer::HandleToolsCall`: an invalid `params` pointer yields the
invalid-params error; otherwise the tool named by `params.name` (the empty
string when absent) runs with `params.arguments` (an invalid pointer when
absent) and its text is wrapped as a single text content item in a success
envelope. -/
def handleToolsCall (exec : ToolExec) (id : Int) (params : Option JsonObj) : Json :=
  match params with
  | none => createErrorResponse id (-32602) "Invalid params"
  | some p =>
      let toolName := getStringFieldD p "name"
      let args := getObjectField p "arguments"
      createSuccessResponse id (contentResult (dispatchTool exec toolName args))

/-- Tool names added by `FMCPServer::RegisterActorTools`, in source order.
Descriptions and input schemas are not modelled: the claims concern the names. -/
def registerActorToolsNames : List String :=
  ["get_actor_list", "spawn_actor", "delete_actor", "get_actor_properties",
   "set_actor_property", "find_actors_by_class", "find_actors_by_tag", "find_actors_by_name",
   "duplicate_actor", "set_actor_visibility", "snap_actor_to_ground", "rename_actor",
   "add_actor_tag", "remove_actor_tag", "get_actor_tags", "set_actor_mobility",
   "get_actor_mobility", "attach_actor_to_actor", "detach_actor"]

/-- Tool names added by `FMCPServer::RegisterSelectionTools`, in source order. -/
def registerSelectionToolsNames : List String :=
  ["select_actors", "get_selected_actors", "clear_selection", "focus_on_actor"]

/-- Tool names added by `FMCPServer::RegisterViewportTools`, in source order. -/
def registerViewportToolsNames : List String :=
  ["get_viewport_camera", "set_viewport_camera", "take_screenshot", "set_view_mode",
   "get_view_mode", "pilot_actor", "stop_piloting", "set_viewport_realtime",
   "set_viewport_stats"]

/-- Tool names added by `FMCPServer::RegisterLevelTools`, in source order. -/
def registerLevelToolsNames : List String :=
  ["get_current_level", "load_level", "save_level"]

/-- Tool names added by `FMCPServer::RegisterPIETools`, in source order. -/
def registerPIEToolsNames : List String :=
  ["start_pie", "stop_pie"]

/-- Tool names added by `FMCPServer::RegisterAssetTools`, in source order. -/
def registerAssetToolsNames : List String :=
  ["search_assets", "get_asset_info", "load_asset", "duplicate_asset",
   "rename_asset", "delete_asset", "create_folder", "get_asset_references"]

/-- Tool names added by `FMCPServer::RegisterBlueprintTools`, in source order. -/
def registerBlueprintToolsNames : List String :=
  ["create_blueprint", "get_blueprint_info", "compile_blueprint", "spawn_blueprint_actor",
   "add_blueprint_variable", "remove_blueprint_variable", "get_blueprint_variables",
   "get_blueprint_functions", "set_blueprint_variable_default"]

/-- Tool names added by `FMCPServer::RegisterMaterialTools`, in source order. -/
def registerMaterialToolsNames : List String :=
  ["create_material_instance", "set_material_scalar", "apply_material_to_actor",
   "set_material_vector", "get_material_parameters", "replace_actor_material",
   "get_actor_materials"]

/-- Tool names added by `FMCPServer::RegisterEditorTools`, in source order. -/
def registerEditorToolsNames : List String :=
  ["execute_console_command", "get_project_info"]

/-- Tool names added by `FMCPServer::RegisterPhysicsTools`, in source order. -/
def registerPhysicsToolsNames : List String :=
  ["set_simulate_physics", "set_collision_enabled", "set_collision_profile",
   "add_impulse", "get_physics_state"]

/-- Tool names added by `FMCPServer::RegisterEditorUtilityTools`, in source order. -/
def registerEditorUtilityToolsNames : List String :=
  ["get_editor_preference", "set_editor_preference", "run_editor_utility",
   "get_engine_info"]

/-- Tool names added by `FMCPServer::RegisterBookmarkTools`, in source order. -/
def registerBookmarkToolsNames : List String :=
  ["set_viewport_bookmark", "jump_to_bookmark", "clear_bookmark", "list_bookmarks"]

/-- Tool names added by `FMCPServer::RegisterComponentTools`, in source order. -/
def registerComponentToolsNames : List String :=
  ["get_actor_components", "get_component_properties", "set_component_transform",
   "set_component_visibility", "remove_component"]

/-- Tool names added by `FMCPServer::RegisterAnimationTools`, in source order. -/
def registerAnimationToolsNames : List String :=
  ["play_animation", "stop_animation", "get_animation_list", "create_level_sequence",
   "add_actor_to_sequence", "play_sequence", "stop_sequence", "set_sequence_time"]

/-- Tool names added by `FMCPServer::RegisterAudioTools`, in source order. -/
def registerAudioToolsNames : List String :=
  ["play_sound_at_location", "spawn_audio_component", "set_audio_volume",
   "stop_all_sounds", "get_audio_components", "set_audio_attenuation"]

/-- Tool names added by `FMCPServer::RegisterLandscapeTools`, in source order. -/
def registerLandscapeToolsNames : List String :=
  ["get_landscape_info", "get_landscape_height", "get_foliage_types",
   "add_foliage_instance", "remove_foliage_in_radius", "get_foliage_count"]

/-- All names enumerated by `FMCPServer::HandleToolsList`, concatenated in the
order the sixteen register calls are made there. -/
def registeredToolNames : List String :=
  registerActorToolsNames ++ registerSelectionToolsNames ++ registerViewportToolsNames ++
  registerLevelToolsNames ++ registerPIEToolsNames ++ registerAssetToolsNames ++
  registerBlueprintToolsNames ++ registerMaterialToolsNames ++ registerEditorToolsNames ++
  registerPhysicsToolsNames ++ registerEditorUtilityToolsNames ++ registerBookmarkToolsNames ++
  registerComponentToolsNames ++ registerAnimationToolsNames ++ registerAudioToolsNames ++
  registerLandscapeToolsNames

/-- `FMCPServer::HandleToolsList`: the registered descriptors (modelled by their
names) wrapped as the `tools` array of a success envelope. -/
def handleToolsList (id : Int) : Json :=
  createSuccessResponse id
    (Json.obj [("tools", Json.arr (registeredToolNames.map
      (fun n => Json.obj [("name", Json.str n)])))])

/-- The four method strings `FMCPServer::ProcessMessage` recognises. -/
def supportedMethods : List String :=
  ["initialize", "tools/list", "tools/call", "notifications/initialized"]

/-- `FMCPServer::ProcessMessage` on the result of deserialising one frame
(`none` = `FJsonSerializer::Deserialize` failed):  parse error and missing
`method` answer with sentinel id 0; otherwise the id is read through
`TryGetNumberField` with default 0 and the method dispatched; the
`notifications/initialized` branch returns the empty string, i.e. no response
(`none` here). -/
def processMessage (exec : ToolExec) (parsed : Option JsonObj) : Option Json :=
  match parsed with
  | none => some (createErrorResponse 0 (-32700) "Parse error")
  | some o =>
      match tryGetStringField o "method" with
      | none => some (createErrorResponse 0 (-32600) "Invalid Request")
      | some m =>
          let id := (tryGetNumberField o "id").getD 0
          if m = "initialize" then some (handleInit id)
          else if m = "tools/list" then some (handleToolsList id)
          else if m = "tools/call" then
            some (handleToolsCall exec id (getObjectField o "params"))
          else if m = "notifications/initialized" then none
          else some (createErrorResponse id (-32601) "Method not found")

/-- A fixed executor used to instantiate `ToolExec` in closed statements. -/
def execStub : ToolExec := fun _ _ => "stub"

/-! ### A concrete JSON deserialiser

`FJsonSerializer::Deserialize` is engine code outside this repository; the
fuel-bounded recursive-descent parser below is its executable model, enough to
evaluate the server on concrete frames.  Restriction: number literals are
integral (`Int`), which covers every claim (ids and codes); a fractional or
exponent literal is rejected. -/

/-- Leading JSON whitespace removed. -/
def skipWs : List Char → List Char
  | c :: cs => if c = ' ' ∨ c = '\t' ∨ c = '\n' ∨ c = '\r' then skipWs cs else c :: cs
  | [] => []

/-- The body of a string literal, after its opening quote: the decoded string
and the input after the closing quote. -/
def parseStringRest (fuel : Nat) (cs : List Char) (acc : List Char) :
    Option (String × List Char) :=
  match fuel, cs with
  | 0, _ => none
  | _, [] => none
  | fuel + 1, c :: cs =>
      if c = '"' then some (String.mk acc.reverse, cs)
      else if c = '\\' then
        match cs with
        | [] => none
        | e :: cs' =>
            if e = '"' then parseStringRest fuel cs' ('"' :: acc)
            else if e = '\\' then parseStringRest fuel cs' ('\\' :: acc)
            else if e = '/' then parseStringRest fuel cs' ('/' :: acc)
            else if e = 'n' then parseStringRest fuel cs' ('\n' :: acc)
            else if e = 't' then parseStringRest fuel cs' ('\t' :: acc)
            else if e = 'r' then parseStringRest fuel cs' ('\r' :: acc)
            else none
      else parseStringRest fuel cs (c :: acc)

/-- An integral JSON number literal (optional minus, digits; a following `.`,
`e` or `E` is rejected, see the module comment). -/
def parseIntLit (cs : List Char) : Option (Int × List Char) :=
  let (neg, cs') := match cs with
    | '-' :: rest => (true, rest)
    | _ => (false, cs)
  match takeDigits cs' with
  | ([], _) => none
  | (ds, r) =>
      match r with
      | c :: _ => if c = '.' ∨ c = 'e' ∨ c = 'E' then none
                  else some (if neg then -(digitsToNat ds : Int) else (digitsToNat ds : Int), r)
      | [] => some (if neg then -(digitsToNat ds : Int) else (digitsToNat ds : Int), [])

mutual

/-- One JSON value and the remaining input. -/
def parseValue : Nat → List Char → Option (Json × List Char)
  | 0, _ => none
  | fuel + 1, cs =>
      match skipWs cs with
      | [] => none
      | c :: rest =>
          if c = '"' then
            (parseStringRest (fuel + 1) rest []).map (fun p => (Json.str p.1, p.2))
          else if c = '{' then
            parseObjRest fuel rest []
          else if c = '[' then
            parseArrRest fuel rest []
          else if c = 't' then
            match rest with
            | 'r' :: 'u' :: 'e' :: r => some (Json.boolean true, r)
            | _ => none
          else if c = 'f' then
            match rest with
            | 'a' :: 'l' :: 's' :: 'e' :: r => some (Json.boolean false, r)
            | _ => none
          else if c = 'n' then
            match rest with
            | 'u' :: 'l' :: 'l' :: r => some (Json.null, r)
            | _ => none
          else
            (parseIntLit (c :: rest)).map (fun p => (Json.num p.1, p.2))

/-- The members of an object, after its opening brace (`acc` holds the members
parsed so far, in order). -/
def parseObjRest : Nat → List Char → List (String × Json) → Option (Json × List Char)
  | 0, _, _ => none
  | fuel + 1, cs, acc =>
      match skipWs cs with
      | [] => none
      | c :: rest =>
          if c = '}' then some (Json.obj acc.reverse, rest)
          else if c = ',' then parseObjRest fuel rest acc
          else if c = '"' then
            match parseStringRest (fuel + 1) rest [] with
            | none => none
            | some (key, afterKey) =>
                match skipWs afterKey with
                | ':' :: afterColon =>
                    match parseValue fuel afterColon with
                    | none => none
                    | some (v, r) => parseObjRest fuel r ((key, v) :: acc)
                | _ => none
          else none

/-- The elements of an array, after its opening bracket. -/
def parseArrRest : Nat → List Char → List Json → Option (Json × List Char)
  | 0, _, _ => none
  | fuel + 1, cs, acc =>
      match skipWs cs with
      | [] => none
      | c :: rest =>
          if c = ']' then some (Json.arr acc.reverse, rest)
          else if c = ',' then parseArrRest fuel rest acc
          else
            match parseValue fuel (c :: rest) with
            | none => none
            | some (v, r) => parseArrRest fuel r (v :: acc)

end

/-- Model of `FJsonSerializer::Deserialize` into a `TSharedPtr<FJsonObject>`:
succeeds exactly when a top-level JSON object parses from the frame (content
after the closing brace is not examined, as in the engine reader). -/
def parseTopObj (s : String) : Option JsonObj :=
  match parseValue (s.data.length + 1) s.data with
  | some (Json.obj o, _) => some o
  | _ => none

/-! ### Framing: the read loop of `FMCPServer::Run`

Each socket read converts the received bytes to a string, splits it on `\n`
with empty segments culled (`FString::ParseIntoArray(..., true)`), and feeds
every segment to `ProcessMessage`, sending each non-empty response.  No bytes
are carried over between reads. -/

/-- Split on the newline delimiter; the segment after the last delimiter is the
final element (possibly empty). -/
def splitNlAux : List Char → List Char → List (List Char)
  | [], acc => [acc.reverse]
  | c :: cs, acc =>
      if c = '\n' then acc.reverse :: splitNlAux cs []
      else splitNlAux cs (c :: acc)

/-- `FString::ParseIntoArray(OutArray, TEXT("\n"), true)`: the newline-separated
segments with empty segments culled. -/
def parseIntoLines (s : String) : List String :=
  ((splitNlAux s.data []).map String.mk).filter (fun t => t ≠ "")

/-- The responses one read iteration of `FMCPServer::Run` sends for the bytes
`data` received by that single `Recv`: every non-empty line segment is processed
as a frame and every non-empty response is sent. -/
def runReadResponses (exec : ToolExec) (data : String) : List Json :=
  (parseIntoLines data).filterMap (fun f => processMessage exec (parseTopObj f))

/-- Modelled from the spec: the Frame Reader contract of spec section 4.2 —
"given the accumulated buffer, split on a newline delimiter; every non-empty
segment preceding a delimiter is a candidate frame, yielded in arrival order;
any trailing bytes after the last delimiter remain buffered awaiting more
data."  Source `FMCPServer::Run` has no such buffer; this definition exists to
compare the source's framing against the specified one. -/
def specFrameStep (buffer data : String) : List String × String :=
  let parts := splitNlAux (buffer ++ data).data []
  ((parts.dropLast.map String.mk).filter (fun t => t ≠ ""),
   String.mk (parts.getLastD []))

/-- Modelled from the spec: the frames yielded over a sequence of reads by the
buffering Frame Reader of spec section 4.2, starting from `buffer`. -/
def specFramesFrom (buffer : String) : List String → List String
  | [] => []
  | d :: ds =>
      let (fs, b') := specFrameStep buffer d
      fs ++ specFramesFrom b' ds

/-- Modelled from the spec: the responses produced for a sequence of reads when
frames come from the buffering Frame Reader and each frame is processed as one
message. -/
def specReadsResponses (exec : ToolExec) (reads : List String) : List Json :=
  (specFramesFrom "" reads).filterMap (fun f => processMessage exec (parseTopObj f))

/-! ### Connection management (`FMCPServer::Run`, accept and disconnect logic)

Sockets are identified by numbers; `accepted` records every socket ever
returned by `Accept`, `closed` every socket passed to `Close`/`DestroySocket`,
and `client` is the `ClientSocket` member.  One loop iteration accepts at most
one pending connection (closing the previous client first) and, when the
active client has no pending data and reports a non-connected state, destroys
it. -/

structure ConnState where
  accepted : List Nat
  closed : List Nat
  client : Option Nat
deriving Repr, DecidableEq

/-- The accepted connections not yet closed. -/
def liveConns (s : ConnState) : List Nat :=
  s.accepted.filter (fun c => c ∉ s.closed)

/-- The accept phase of one `Run` iteration: if a connection is pending it is
accepted, the previous client (if any) is closed first, and the new socket
unconditionally becomes the client. -/
def acceptPhase (s : ConnState) (pending : Option Nat) : ConnState :=
  match pending with
  | none => s
  | some newSock =>
      match s.client with
      | none =>
          { accepted := s.accepted ++ [newSock], closed := s.closed, client := some newSock }
      | some old =>
          { accepted := s.accepted ++ [newSock], closed := s.closed ++ [old],
            client := some newSock }

/-- The disconnect-detection phase of one `Run` iteration: when a client is
active, has no pending data and its connection state is not `SCS_Connected`,
the socket is destroyed and the server returns to the unconnected state. -/
def disconnectPhase (s : ConnState) (hasData connected : Bool) : ConnState :=
  match s.client with
  | none => s
  | some c =>
      if hasData then s
      else if connected then s
      else { accepted := s.accepted, closed := s.closed ++ [c], client := none }

/-- One iteration of the `Run` loop, as far as connection state is concerned. -/
def loopIter (s : ConnState) (pending : Option Nat) (hasData connected : Bool) : ConnState :=
  disconnectPhase (acceptPhase s pending) hasData connected

/-- The connection invariant: every accepted, unclosed socket is the active
client (hence there is at most one live connection). -/
def connInv (s : ConnState) : Prop :=
  ∀ c, c ∈ s.accepted → c ∉ s.closed → s.client = some c

instance (s : ConnState) : Decidable (connInv s) := by
  unfold connInv; infer_instance

/-! ### Tool executors: argument handling (`ExecuteSpawnActor` and friends)

Each executor receives `Params->GetObjectField(TEXT("arguments"))`, an invalid
shared pointer when `arguments` is absent.  Guarded executors test
`!Args.IsValid()` and return the fixed text; `ExecuteSetSimulatePhysics` and 31
others dereference `Args` with no guard, modelled as a fault.  Editor side
effects past the argument handling are abstracted by `body`. -/

/-- A fault of the privileged-context closure: dereferencing an invalid
`TSharedPtr<FJsonObject>` (a failed `check` in development builds, undefined
behaviour in shipping builds). -/
inductive ExecFault where
  | derefInvalidPtr
deriving Repr, DecidableEq

/-- `FMCPServer::ExecuteSpawnActor` (line 2191): `if (!Args.IsValid()) return
TEXT("Error: Invalid arguments");` then the spawn logic on `Args`. -/
def executeSpawnActor (body : JsonObj → String) (args : Option JsonObj) :
    Except ExecFault String :=
  match args with
  | none => Except.ok "Error: Invalid arguments"
  | some a => Except.ok (body a)

/-- `FMCPServer::ExecuteDeleteActor` (line 2239): same guard, then the delete
logic on `Args`. -/
def executeDeleteActor (body : JsonObj → String) (args : Option JsonObj) :
    Except ExecFault String :=
  match args with
  | none => Except.ok "Error: Invalid arguments"
  | some a => Except.ok (body a)

/-- `FMCPServer::ExecuteSetSimulatePhysics` (line 4406): the body starts with
`Args->GetStringField(TEXT("actor_name"))` with no validity guard, so an
invalid `Args` pointer is dereferenced. -/
def executeSetSimulatePhysics (body : JsonObj → String) (args : Option JsonObj) :
    Except ExecFault String :=
  match args with
  | none => Except.error ExecFault.derefInvalidPtr
  | some a => Except.ok (body a)

/-! ### Helper lemmas -/

theorem responseId_createError (i code : Int) (msg : String) :
    responseId (createErrorResponse i code msg) = some i := rfl

theorem responseId_createSuccess (i : Int) (result : Json) :
    responseId (createSuccessResponse i result) = some i := rfl

theorem responseId_handleInit (i : Int) : responseId (handleInit i) = some i := rfl

theorem responseId_handleToolsList (i : Int) : responseId (handleToolsList i) = some i := rfl

theorem responseId_handleToolsCall (exec : ToolExec) (i : Int) (params : Option JsonObj) :
    responseId (handleToolsCall exec i params) = some i := by
  cases params <;> rfl

theorem getStringFieldD_of_tryGet_none {p : JsonObj} {key : String}
    (h : tryGetStringField p key = none) : getStringFieldD p key = "" := by
  unfold tryGetStringField at h
  unfold getStringFieldD
  rw [h]
  rfl

theorem closed_mono_disconnect (s : ConnState) (hasData connected : Bool) {x : Nat}
    (hx : x ∈ s.closed) : x ∈ (disconnectPhase s hasData connected).closed := by
  unfold disconnectPhase
  rcases s.client with _ | c
  · exact hx
  · dsimp only
    split
    · exact hx
    · split
      · exact hx
      · exact List.mem_append_left _ hx

theorem connInv_acceptPhase (s : ConnState) (pending : Option Nat)
    (hinv : connInv s) (hfresh : ∀ n, pending = some n → n ∉ s.accepted) :
    connInv (acceptPhase s pending) := by
  rcases pending with _ | n
  · exact hinv
  · have hn : n ∉ s.accepted := hfresh n rfl
    obtain ⟨acc, cls, cli⟩ := s
    rcases cli with _ | old
    · intro c hcm hcn
      rcases List.mem_append.mp hcm with h | h
      · exact Option.noConfusion (hinv c h hcn)
      · simp only [List.mem_singleton] at h
        subst h
        rfl
    · intro c hcm hcn
      have hcn1 : c ∉ cls := fun h => hcn (List.mem_append_left _ h)
      have hcne : c ≠ old := fun h => hcn (List.mem_append_right _ (by simp [h]))
      rcases List.mem_append.mp hcm with h | h
      · exact absurd (Option.some.inj (hinv c h hcn1)).symm hcne
      · simp only [List.mem_singleton] at h
        subst h
        rfl

theorem connInv_disconnectPhase (s : ConnState) (hasData connected : Bool)
    (hinv : connInv s) : connInv (disconnectPhase s hasData connected) := by
  obtain ⟨acc, cls, cli⟩ := s
  rcases cli with _ | c
  · exact hinv
  · cases hasData
    · cases connected
      · intro c' h1 h2
        exfalso
        have h3 : c' ∉ cls := fun h => h2 (List.mem_append_left _ h)
        have h4 : c' ≠ c := fun h => h2 (List.mem_append_right _ (by simp [h]))
        exact h4 (Option.some.inj (hinv c' h1 h3)).symm
      · exact hinv
    · exact hinv

theorem live_unique {t : ConnState} (hinv : connInv t) :
    ∀ c d, c ∈ liveConns t → d ∈ liveConns t → c = d := by
  intro c d hcm hdm
  simp only [liveConns, List.mem_filter, decide_eq_true_eq] at hcm hdm
  have h1 := hinv c hcm.1 hcm.2
  have h2 := hinv d hdm.1 hdm.2
  rw [h1] at h2
  exact Option.some.inj h2

/-! ### The claims -/

/-- C1, counterexample: the message
`{"method":"notifications/initialized","id":5}` carries the id 5 and one of the
four supported methods, yet `ProcessMessage` returns the empty string, so zero
responses are produced — refuting "exactly one response with the request's id
for all four supported methods". -/
theorem c1_notification_with_id_counterexample :
    tryGetNumberField
      [("method", Json.str "notifications/initialized"), ("id", Json.num 5)] "id" = some 5 ∧
    tryGetStringField
      [("method", Json.str "notifications/initialized"), ("id", Json.num 5)] "method" =
      some "notifications/initialized" ∧
    "notifications/initialized" ∈ supportedMethods ∧
    processMessage execStub
      (some [("method", Json.str "notifications/initialized"), ("id", Json.num 5)]) = none :=
  ⟨rfl, rfl, by decide, rfl⟩

/-- C1 (amended): for every request that parses, carries an id readable by
`TryGetNumberField(int32&)` (a number, numeric string or boolean within int32
range) and a method string other than `notifications/initialized`,
`ProcessMessage` produces exactly one response (it returns one non-empty
string) and that response's id equals the id so read; an id the int32 read
rejects (absent, out of range, non-numeric) is treated as the sentinel 0,
`notifications/initialized` produces no response even when an id is present,
and parse-error / invalid-request faults answer with the sentinel id 0 instead
of the request's id. -/
theorem c1_id_match_amended (exec : ToolExec) (o : JsonObj) (idv : Int) (m : String)
    (hid : tryGetNumberField o "id" = some idv)
    (hm : tryGetStringField o "method" = some m)
    (hnotif : m ≠ "notifications/initialized") :
    ∃ r, processMessage exec (some o) = some r ∧ responseId r = some idv := by
  unfold processMessage
  dsimp only
  rw [hm, hid]
  by_cases h1 : m = "initialize"
  · subst h1
    exact ⟨_, rfl, responseId_handleInit idv⟩
  · by_cases h2 : m = "tools/list"
    · subst h2
      simp only [if_neg (by decide : ¬("tools/list" = "initialize")), if_pos rfl]
      exact ⟨_, rfl, responseId_handleToolsList idv⟩
    · by_cases h3 : m = "tools/call"
      · subst h3
        simp only [if_neg (by decide : ¬("tools/call" = "initialize")),
          if_neg (by decide : ¬("tools/call" = "tools/list")), if_pos rfl]
        exact ⟨_, rfl, responseId_handleToolsCall exec idv _⟩
      · simp only [if_neg h1, if_neg h2, if_neg h3, if_neg hnotif]
        exact ⟨_, rfl, responseId_createError idv (-32601) "Method not found"⟩

/-- Witness for C1's amended theorem at the request
`{"method":"tools/list","id":9}`. -/
theorem c1_id_match_witness :
    ∃ r, processMessage execStub
        (some [("method", Json.str "tools/list"), ("id", Json.num 9)]) = some r ∧
      responseId r = some 9 :=
  c1_id_match_amended execStub [("method", Json.str "tools/list"), ("id", Json.num 9)]
    9 "tools/list" rfl rfl (by decide)

/-- C2 (code bug), evaluated at the failing input: the valid line
`{"jsonrpc":"2.0","id":1,"method":"initialize"}\n` arrives split across two
reads.  The source (`FMCPServer::Run`) keeps no buffer between reads and treats
the trailing bytes of each read as a frame, so it answers each partial read
with its own parse-error response — two responses in total.  The Frame Reader
specified in spec section 4.2 (modelled by `specFrameStep`) buffers the first
read's bytes whole and produces exactly one response, the `initialize` success,
once the line is complete. -/
theorem c2_split_read_divergence :
    runReadResponses execStub "\x7b\"jsonrpc\":\"2.0\",\"id\":1,\"meth" =
      [createErrorResponse 0 (-32700) "Parse error"] ∧
    runReadResponses execStub "od\":\"initialize\"\x7d\n" =
      [createErrorResponse 0 (-32700) "Parse error"] ∧
    specFrameStep "" "\x7b\"jsonrpc\":\"2.0\",\"id\":1,\"meth" =
      ([], "\x7b\"jsonrpc\":\"2.0\",\"id\":1,\"meth") ∧
    specReadsResponses execStub
      ["\x7b\"jsonrpc\":\"2.0\",\"id\":1,\"meth", "od\":\"initialize\"\x7d\n"] =
      [handleInit 1] :=
  ⟨rfl, rfl, rfl, rfl⟩

/-- C3 (confirmed): for every `tools/call` whose `params` is a valid object,
the reply is a success envelope wrapping a single `{type:"text"}` content item
and is never a JSON-RPC error, whatever the executors return; when the named
tool is not registered the wrapped text is exactly `"Unknown tool: "` followed
by the name. -/
theorem c3_call_always_success (exec : ToolExec) (i : Int) (p : JsonObj) :
    (∃ text, handleToolsCall exec i (some p) = createSuccessResponse i (contentResult text)) ∧
    isErrorResponse (handleToolsCall exec i (some p)) = false ∧
    (getStringFieldD p "name" ∉ toolNames →
      handleToolsCall exec i (some p) =
        createSuccessResponse i (contentResult ("Unknown tool: " ++ getStringFieldD p "name"))) := by
  refine ⟨⟨_, rfl⟩, rfl, ?_⟩
  intro h
  unfold handleToolsCall
  dsimp only
  unfold dispatchTool
  rw [if_neg h]

/-- Witness for C3 at scenario B's request: calling the unregistered name
`does_not_exist` yields a success whose text contains "Unknown tool". -/
theorem c3_unknown_tool_witness :
    handleToolsCall execStub 2 (some [("name", Json.str "does_not_exist")]) =
      createSuccessResponse 2 (contentResult ("Unknown tool: " ++ "does_not_exist")) :=
  (c3_call_always_success execStub 2 [("name", Json.str "does_not_exist")]).2.2 (by decide)

/-- C5, counterexample: a `tools/call` whose `params` object lacks the `name`
string is not rejected — `GetStringField` silently yields the empty string, the
dispatch chain runs, and the reply is a protocol-level success reading
`"Unknown tool: "`, not an error. -/
theorem c5_missing_name_counterexample :
    tryGetStringField [] "name" = none ∧
    handleToolsCall execStub 3 (some []) =
      createSuccessResponse 3 (contentResult "Unknown tool: ") :=
  ⟨rfl, rfl⟩

/-- C5 (amended): a `tools/call` whose `params` is missing or not an object is
answered with the invalid-params error `-32602` (carrying the request id as
read by the int32 `TryGetNumberField`, sentinel 0 when that read fails); the
presence of `name` is NOT validated — when `params` has no `name` field with a
string form (the engine coerces a numeric or boolean `name` to its string
form, so only a missing, null, array or object `name` reads as empty) the call
is dispatched with the empty tool name and answered with the protocol-level
success `"Unknown tool: "`. -/
theorem c5_params_validation_amended (exec : ToolExec) (i : Int) :
    handleToolsCall exec i none = createErrorResponse i (-32602) "Invalid params" ∧
    (∀ o : JsonObj, tryGetStringField o "method" = some "tools/call" →
      getObjectField o "params" = none →
      processMessage exec (some o) =
        some (createErrorResponse ((tryGetNumberField o "id").getD 0) (-32602) "Invalid params")) ∧
    (∀ p : JsonObj, tryGetStringField p "name" = none →
      handleToolsCall exec i (some p) =
        createSuccessResponse i (contentResult "Unknown tool: ")) := by
  refine ⟨rfl, ?_, ?_⟩
  · intro o hm hp
    unfold processMessage
    dsimp only
    rw [hm]
    simp only [if_neg (by decide : ¬("tools/call" = "initialize")),
      if_neg (by decide : ¬("tools/call" = "tools/list")), if_pos rfl]
    rw [hp]
    simp only [if_true]
    rfl
  · intro p hn
    have h0 : getStringFieldD p "name" = "" := getStringFieldD_of_tryGet_none hn
    unfold handleToolsCall
    dsimp only
    unfold dispatchTool
    rw [h0, if_neg (by decide : ¬(("" : String) ∈ toolNames))]
    rfl

/-- Witness for C5's amended theorem: a `tools/call` without `params` gets the
`-32602` error, and one whose `params` is the empty object gets the
unknown-tool success. -/
theorem c5_params_validation_witness :
    handleToolsCall execStub 4 none = createErrorResponse 4 (-32602) "Invalid params" ∧
    handleToolsCall execStub 4 (some []) =
      createSuccessResponse 4 (contentResult "Unknown tool: ") :=
  ⟨(c5_params_validation_amended execStub 4).1,
   (c5_params_validation_amended execStub 4).2.2 [] rfl⟩

/-- C6, counterexample: the frame `{"method":42}` parses but lacks a top-level
`method` string field, so the claim assigns it code `-32600`; the engine's
`TryGetStringField` coerces the number to the string "42", so the server
actually dispatches the unknown method "42" and answers `-32601`. -/
theorem c6_numeric_method_counterexample :
    findField [("method", Json.num 42)] "method" = some (Json.num 42) ∧
    processMessage execStub (some [("method", Json.num 42)]) =
      some (createErrorResponse 0 (-32601) "Method not found") :=
  ⟨rfl, rfl⟩

/-- C6 (amended): an unparsable frame is answered with code `-32700` and the
sentinel id 0; a frame that parses but whose `method` field is missing or has
no string form (null, array, object — numbers and booleans are coerced by the
engine to their string form) is answered with code `-32600`; a frame whose
method string, coerced or not, is none of the four supported methods is
answered with code `-32601`, carrying the request id as read by the int32
`TryGetNumberField` (sentinel 0 when that read fails). -/
theorem c6_fault_classification (exec : ToolExec) :
    processMessage exec none = some (createErrorResponse 0 (-32700) "Parse error") ∧
    (∀ o : JsonObj, tryGetStringField o "method" = none →
      processMessage exec (some o) = some (createErrorResponse 0 (-32600) "Invalid Request")) ∧
    (∀ (o : JsonObj) (m : String), tryGetStringField o "method" = some m →
      m ∉ supportedMethods →
      processMessage exec (some o) =
        some (createErrorResponse ((tryGetNumberField o "id").getD 0) (-32601)
          "Method not found")) := by
  refine ⟨rfl, ?_, ?_⟩
  · intro o h
    unfold processMessage
    dsimp only
    rw [h]
  · intro o m hm hns
    simp only [supportedMethods, List.mem_cons, List.not_mem_nil, or_false, not_or] at hns
    obtain ⟨h1, h2, h3, h4⟩ := hns
    unfold processMessage
    dsimp only
    rw [hm]
    simp only [if_neg h1, if_neg h2, if_neg h3, if_neg h4]

/-- Witness for C6 at a frame with no `method` and at one with an unsupported
method. -/
theorem c6_fault_classification_witness :
    processMessage execStub (some [("x", Json.num 1)]) =
      some (createErrorResponse 0 (-32600) "Invalid Request") ∧
    processMessage execStub (some [("method", Json.str "bogus"), ("id", Json.num 4)]) =
      some (createErrorResponse 4 (-32601) "Method not found") :=
  ⟨(c6_fault_classification execStub).2.1 [("x", Json.num 1)] rfl,
   (c6_fault_classification execStub).2.2 [("method", Json.str "bogus"), ("id", Json.num 4)]
     "bogus" rfl (by decide)⟩

/-- C7, counterexample: the message `{"method":"initialize"}` carries no id, so
under the claim it is a notification and must get no reply — but the source
defaults the missing id to 0 and answers it with the `initialize` success
envelope. -/
theorem c7_missing_id_counterexample :
    tryGetNumberField [("method", Json.str "initialize")] "id" = none ∧
    processMessage execStub (some [("method", Json.str "initialize")]) =
      some (handleInit 0) :=
  ⟨rfl, rfl⟩

/-- C7 (amended): only the `notifications/initialized` method is treated as a
reply-free notification (with or without an id); a message of any other method
that carries no `id` field at all is still answered, with the id defaulted to
the sentinel 0. -/
theorem c7_notification_amended (exec : ToolExec) :
    (∀ o : JsonObj, tryGetStringField o "method" = some "notifications/initialized" →
      processMessage exec (some o) = none) ∧
    (∀ (o : JsonObj) (m : String), tryGetStringField o "method" = some m →
      m ≠ "notifications/initialized" → findField o "id" = none →
      ∃ r, processMessage exec (some o) = some r ∧ responseId r = some 0) := by
  constructor
  · intro o h
    unfold processMessage
    dsimp only
    rw [h]
    rfl
  · intro o m hm hnotif hnoid
    have hid : tryGetNumberField o "id" = none := by
      unfold tryGetNumberField
      rw [hnoid]
      rfl
    unfold processMessage
    dsimp only
    rw [hm, hid]
    by_cases h1 : m = "initialize"
    · subst h1
      exact ⟨_, rfl, responseId_handleInit 0⟩
    · by_cases h2 : m = "tools/list"
      · subst h2
        simp only [if_neg (by decide : ¬("tools/list" = "initialize")), if_pos rfl]
        exact ⟨_, rfl, responseId_handleToolsList 0⟩
      · by_cases h3 : m = "tools/call"
        · subst h3
          simp only [if_neg (by decide : ¬("tools/call" = "initialize")),
            if_neg (by decide : ¬("tools/call" = "tools/list")), if_pos rfl]
          exact ⟨_, rfl, responseId_handleToolsCall exec 0 _⟩
        · simp only [if_neg h1, if_neg h2, if_neg h3, if_neg hnotif]
          exact ⟨_, rfl, responseId_createError 0 (-32601) "Method not found"⟩

/-- Witness for C7's amended theorem: `notifications/initialized` with an id
gets no reply, and an id-less `tools/list` is answered with id 0. -/
theorem c7_notification_witness :
    processMessage execStub
      (some [("method", Json.str "notifications/initialized"), ("id", Json.num 3)]) = none ∧
    ∃ r, processMessage execStub (some [("method", Json.str "tools/list")]) = some r ∧
      responseId r = some 0 :=
  ⟨(c7_notification_amended execStub).1 _ rfl,
   (c7_notification_amended execStub).2 [("method", Json.str "tools/list")] "tools/list"
     rfl (by decide) rfl⟩

/-- C8 (confirmed): the names enumerated by `HandleToolsList` (the sixteen
register calls, in call order) are exactly the names dispatchable through
`HandleToolsCall`'s chain — the very same list, hence the same set in the same
order on every call — and they contain no duplicate. -/
theorem c8_registry_matches_dispatch :
    registeredToolNames = toolNames ∧ registeredToolNames.Nodup := by
  constructor
  · rfl
  · decide

/-- C9 (confirmed): assuming the invariant that every accepted-and-unclosed
socket is the active client, and that `Accept` returns a fresh socket, one
iteration of the `Run` loop preserves the invariant, leaves at most one live
connection, and on accepting while a client is active closes the old client
(it ends up destroyed) and unconditionally installs the new one. -/
theorem c9_single_connection (s : ConnState) (pending : Option Nat)
    (hasData connected : Bool) (hinv : connInv s)
    (hfresh : ∀ n, pending = some n → n ∉ s.accepted) :
    connInv (loopIter s pending hasData connected) ∧
    (∀ c d, c ∈ liveConns (loopIter s pending hasData connected) →
      d ∈ liveConns (loopIter s pending hasData connected) → c = d) ∧
    (∀ old newSock, s.client = some old → pending = some newSock →
      old ∈ (loopIter s pending hasData connected).closed ∧
      (acceptPhase s pending).client = some newSock) := by
  have h1 : connInv (acceptPhase s pending) := connInv_acceptPhase s pending hinv hfresh
  have h2 : connInv (loopIter s pending hasData connected) :=
    connInv_disconnectPhase _ _ _ h1
  refine ⟨h2, live_unique h2, ?_⟩
  intro old newSock hold hpend
  subst hpend
  constructor
  · apply closed_mono_disconnect
    unfold acceptPhase
    rw [hold]
    exact List.mem_append_right _ (by simp)
  · unfold acceptPhase
    rw [hold]

/-- Witness for C9: a server with live client 1 accepting pending socket 2. -/
theorem c9_single_connection_witness :
    connInv (loopIter ⟨[1], [], some 1⟩ (some 2) false true) :=
  (c9_single_connection ⟨[1], [], some 1⟩ (some 2) false true (by decide)
    (fun n h => by injection h with h2; subst h2; decide)).1

/-- C10 (code bug), evaluated at the failing input: a `tools/call` naming the
registered tool `set_simulate_physics` with no `arguments` object hands the
executor an invalid pointer, and `ExecuteSetSimulatePhysics` dereferences it
with no guard — unlike `ExecuteSpawnActor` and `ExecuteDeleteActor`, whose
guard returns the text "Error: Invalid arguments" as the claim describes. -/
theorem c10_unguarded_deref :
    getObjectField [("name", Json.str "set_simulate_physics")] "arguments" = none ∧
    "set_simulate_physics" ∈ toolNames ∧
    executeSetSimulatePhysics (fun _ => "") none = Except.error ExecFault.derefInvalidPtr ∧
    executeSpawnActor (fun _ => "") none = Except.ok "Error: Invalid arguments" ∧
    executeDeleteActor (fun _ => "") none = Except.ok "Error: Invalid arguments" :=
  ⟨rfl, by decide, rfl, rfl, rfl⟩

end UE5MCP
